import Mathlib

/-!
Verification development for the YDTT-Backend live classroom session
subsystem: a shallow embedding of `app/api/v1/lesson_sessions.py`,
`app/api/v1/ws_sessions.py`, `app/core/websocket.py`,
`app/core/dependencies.py` and the models they use, with theorems about
the claimed properties of session lifecycle, websocket access control,
whiteboard persistence, broadcast fault isolation and session attendance.
-/

namespace YDTT

/-! Data model, from `app/models/user.py`, `app/models/lesson_session.py`,
`app/models/session_attendance.py`, `app/models/journal.py`,
`app/models/whiteboard.py` and `app/models/timetable.py`.
Timestamps (`datetime.utcnow()`) are modelled as natural numbers passed
in as a `now` argument; `Optional` columns are `Option`. -/

/-- `UserRole` from `app/models/user.py` lines 21-28. -/
inductive UserRole where
  | STUDENT
  | TEACHER
  | SCHOOL_ADMIN
  | REGION_ADMIN
  | SUPER_ADMIN
  | TECH_ADMIN
deriving DecidableEq, Repr

/-- The fields of `User` (`app/models/user.py`) used by this subsystem:
`id`, `role`, the nullable `class_id`. -/
structure User where
  id : Nat
  role : UserRole
  class_id : Option Nat := none
deriving DecidableEq, Repr

/-- `LessonSessionStatus` from `app/models/lesson_session.py` lines 21-24.
The source enum defines exactly the two members `ACTIVE` and `ENDED`;
it defines no `PENDING` and no `CANCELLED` member, although other modules
refer to those names. -/
inductive LessonSessionStatus where
  | ACTIVE
  | ENDED
deriving DecidableEq, Repr

/-- Python attribute access on the `LessonSessionStatus` enum: returns the
member named `name`, or `none` where Python raises `AttributeError`.
Faithful to the member table of `app/models/lesson_session.py` lines 21-24. -/
def LessonSessionStatus.lookup (name : String) : Option LessonSessionStatus :=
  if name = "ACTIVE" then some .ACTIVE
  else if name = "ENDED" then some .ENDED
  else none

/-- Spec-side predicate: the status the spec calls "PENDING or ACTIVE".
Membership in `PENDING` is expressed through the enum's own member
table, so that a status equal to `PENDING` is possible exactly when the
source enum defines such a member (it does not). -/
def LessonSessionStatus.isPendingOrActive (st : LessonSessionStatus) : Bool :=
  (LessonSessionStatus.lookup "PENDING" == some st) || (st == .ACTIVE)

/-- The fields of `Schedule` (`app/models/timetable.py`) used by
`start_session`: `id`, `teacher_id`, `class_id`, `subject_id`. -/
structure Schedule where
  id : Nat
  teacher_id : Nat
  class_id : Nat
  subject_id : Nat
deriving DecidableEq, Repr

/-- `LessonSession` row, `app/models/lesson_session.py` lines 27-57. -/
structure LessonSession where
  id : Nat
  schedule_id : Nat
  teacher_id : Nat
  class_id : Nat
  subject_id : Nat
  status : LessonSessionStatus
  started_at : Nat
  ended_at : Option Nat := none
  topic : Option String := none
deriving DecidableEq, Repr

/-- `SessionAttendance` row, `app/models/session_attendance.py` lines 20-39. -/
structure SessionAttendance where
  id : Nat
  session_id : Nat
  student_id : Nat
  joined_at : Nat
  left_at : Option Nat := none
deriving DecidableEq, Repr

/-- `SessionAttendance.duration_minutes` property,
`app/models/session_attendance.py` lines 41-47: `None` when `left_at`
is null, otherwise whole minutes between join and leave. -/
def SessionAttendance.duration_minutes (r : SessionAttendance) : Option Nat :=
  match r.left_at with
  | none => none
  | some l => some ((l - r.joined_at) / 60)

/-- `AttendanceStatus` from `app/models/journal.py` lines 20-25
(the daily physical attendance record's status). -/
inductive AttendanceStatus where
  | PRESENT
  | ABSENT
  | LATE
  | EXCUSED
deriving DecidableEq, Repr

/-- Daily physical `Attendance` row (`app/models/journal.py`): the fields
used by the websocket gate are `student_id`, `date`, `status`. -/
structure Attendance where
  student_id : Nat
  date : Nat
  status : AttendanceStatus
deriving DecidableEq, Repr

/-- `WhiteboardEventType` from `app/models/whiteboard.py` lines 21-25. -/
inductive WhiteboardEventType where
  | DRAW
  | ERASE
  | CLEAR
deriving DecidableEq, Repr

/-- `WhiteboardEvent` row, `app/models/whiteboard.py` lines 28-52.
The JSON payload is modelled opaquely as a string. -/
structure WhiteboardEvent where
  id : Nat
  session_id : Nat
  created_by_id : Nat
  event_type : WhiteboardEventType
  payload : String
deriving DecidableEq, Repr

/-- The database state visible to this subsystem. `next_id` supplies
fresh primary keys for inserted rows. -/
structure DBState where
  schedules : List Schedule
  sessions : List LessonSession
  session_attendance : List SessionAttendance
  attendance : List Attendance
  whiteboard_events : List WhiteboardEvent
  next_id : Nat := 1
deriving DecidableEq, Repr

/-- Errors raised by the endpoints: `HTTPException(status_code, detail)`,
Python `AttributeError` on a missing enum member, and SQLAlchemy
`MultipleResultsFound` from `scalar_one_or_none`. -/
inductive ApiError where
  | http (code : Nat) (detail : String)
  | attributeError (member : String)
  | multipleResults
deriving DecidableEq, Repr

/-- SQLAlchemy `Result.scalar_one_or_none()`: `none` on zero rows, the row
on exactly one, an error on more than one. -/
def scalar_one_or_none {α : Type} (rows : List α) : Except ApiError (Option α) :=
  match rows with
  | [] => .ok none
  | [a] => .ok (some a)
  | _ => .error .multipleResults

/-- `db.get(LessonSession, session_id)`: primary-key lookup. -/
def db_get_session (db : DBState) (session_id : Nat) : Option LessonSession :=
  db.sessions.find? (fun s => s.id == session_id)

/-- `require_roles` dependency, `app/core/dependencies.py` lines 66-77:
403 unless the caller's role is among `roles`. -/
def require_roles (roles : List UserRole) (current_user : User) : Except ApiError Unit :=
  if current_user.role ∈ roles then .ok ()
  else .error (.http 403 "Insufficient permissions")

/-- `require_session_access` dependency, `app/core/dependencies.py`
lines 118-147: 404 when the session does not exist; a TEACHER must be the
session's teacher, a STUDENT must be in the session's class; any other
role passes with no further check. -/
def require_session_access (db : DBState) (current_user : User) (session_id : Nat) :
    Except ApiError LessonSession :=
  match db_get_session db session_id with
  | none => .error (.http 404 "Session not found")
  | some session =>
    if current_user.role = .TEACHER then
      if session.teacher_id ≠ current_user.id then
        .error (.http 403 "Not authorized to access this session")
      else .ok session
    else if current_user.role = .STUDENT then
      if current_user.class_id ≠ some session.class_id then
        .error (.http 403 "Not your class session")
      else .ok session
    else .ok session

/-- `start_session`, `app/api/v1/lesson_sessions.py` lines 34-108.
Requires the TEACHER role; 404 when the schedule is missing, 403 when the
caller is not the schedule's teacher; 400 when a `LessonSession` for the
schedule with status `ACTIVE` already exists (that is the only status the
duplicate check queries); otherwise inserts one new session with status
`ACTIVE` and `started_at = now`. The post-commit websocket broadcast does
not change the database and is omitted here. -/
def start_session (db : DBState) (current_user : User) (schedule_id : Nat)
    (topic : Option String) (now : Nat) : Except ApiError (DBState × LessonSession) :=
  match require_roles [.TEACHER] current_user with
  | .error e => .error e
  | .ok _ =>
    match db.schedules.find? (fun s => s.id == schedule_id) with
    | none => .error (.http 404 "Schedule not found")
    | some schedule =>
      if schedule.teacher_id ≠ current_user.id then
        .error (.http 403 "Not your scheduled lesson")
      else
        match scalar_one_or_none (db.sessions.filter
          (fun s => s.schedule_id == schedule_id && s.status == .ACTIVE)) with
        | .error e => .error e
        | .ok (some _) => .error (.http 400 "An active session already exists for this schedule")
        | .ok none =>
          let new_session : LessonSession :=
            { id := db.next_id
              schedule_id := schedule_id
              teacher_id := current_user.id
              class_id := schedule.class_id
              subject_id := schedule.subject_id
              status := .ACTIVE
              started_at := now
              ended_at := none
              topic := topic }
          .ok ({ db with sessions := db.sessions ++ [new_session], next_id := db.next_id + 1 },
               new_session)

/-- `join_session`, `app/api/v1/lesson_sessions.py` lines 111-166.
Requires the STUDENT role; 404 when the session is missing, 400 unless the
session is ACTIVE, 403 unless the student's class matches; then looks up
the `SessionAttendance` row for (session, student) and inserts one with
`joined_at = now` and null `left_at` only when none exists. -/
def join_session (db : DBState) (current_user : User) (session_id : Nat)
    (now : Nat) : Except ApiError (DBState × LessonSession) :=
  match require_roles [.STUDENT] current_user with
  | .error e => .error e
  | .ok _ =>
    match db_get_session db session_id with
    | none => .error (.http 404 "Session not found")
    | some session =>
      if session.status ≠ .ACTIVE then
        .error (.http 400 "Session is not active")
      else if current_user.class_id ≠ some session.class_id then
        .error (.http 403 "Not your class session")
      else
        match scalar_one_or_none (db.session_attendance.filter
          (fun a => a.session_id == session_id && a.student_id == current_user.id)) with
        | .error e => .error e
        | .ok (some _) => .ok (db, session)
        | .ok none =>
          let new_attendance : SessionAttendance :=
            { id := db.next_id
              session_id := session_id
              student_id := current_user.id
              joined_at := now
              left_at := none }
          .ok ({ db with
                  session_attendance := db.session_attendance ++ [new_attendance]
                  next_id := db.next_id + 1 },
               session)

/-- `end_session`, `app/api/v1/lesson_sessions.py` lines 169-197, with its
`require_session_access` and `require_roles(TEACHER)` dependencies. The
handler itself performs no status check: it unconditionally sets
`status = ENDED` and `ended_at = now` on the session and commits. -/
def end_session (db : DBState) (current_user : User) (session_id : Nat)
    (now : Nat) : Except ApiError (DBState × LessonSession) :=
  match require_session_access db current_user session_id with
  | .error e => .error e
  | .ok session =>
    match require_roles [.TEACHER] current_user with
    | .error e => .error e
    | .ok _ =>
      let updated := { session with status := LessonSessionStatus.ENDED, ended_at := some now }
      .ok ({ db with sessions := db.sessions.map (fun s => if s.id == session.id then updated else s) },
           updated)

/-- `cancel_session`, `app/api/v1/lesson_sessions.py` lines 200-231, with
its dependencies. 400 when the session is already ENDED; otherwise the
handler evaluates `LessonSessionStatus.CANCELLED`, an enum member the
model does not define, so Python raises `AttributeError` before any
mutation is committed. -/
def cancel_session (db : DBState) (current_user : User) (session_id : Nat)
    (now : Nat) : Except ApiError (DBState × LessonSession) :=
  match require_session_access db current_user session_id with
  | .error e => .error e
  | .ok session =>
    match require_roles [.TEACHER] current_user with
    | .error e => .error e
    | .ok _ =>
      if session.status = .ENDED then
        .error (.http 400 "Cannot cancel ended session")
      else
        match LessonSessionStatus.lookup "CANCELLED" with
        | none => .error (.attributeError "CANCELLED")
        | some cancelled =>
          let updated := { session with status := cancelled, ended_at := some now }
          .ok ({ db with sessions := db.sessions.map (fun s => if s.id == session.id then updated else s) },
               updated)

/-! The `ConnectionManager` from `app/core/websocket.py`. Sockets are
modelled by natural-number handles. Delivery failure of `send_json` to a
half-closed socket is environmental: operations that send take a `broken`
list of socket handles whose `send_json` raises. -/

/-- Association-list lookup (Python `dict.get`). -/
def alist_get (l : List (Nat × Nat)) (k : Nat) : Option Nat :=
  (l.find? (fun p => p.1 == k)).map Prod.snd

/-- Association-list update (Python `dict[k] = v`). -/
def alist_set (l : List (Nat × Nat)) (k v : Nat) : List (Nat × Nat) :=
  if (l.find? (fun p => p.1 == k)).isSome then
    l.map (fun p => if p.1 == k then (k, v) else p)
  else l ++ [(k, v)]

/-- Association-list removal (Python `dict.pop(k, None)` / `del`). -/
def alist_del (l : List (Nat × Nat)) (k : Nat) : List (Nat × Nat) :=
  l.filter (fun p => p.1 != k)

/-- Room-map lookup: `active_connections.get(session_id)`. -/
def room_get (l : List (Nat × List Nat)) (k : Nat) : Option (List Nat) :=
  (l.find? (fun p => p.1 == k)).map Prod.snd

/-- Room-map update. -/
def room_set (l : List (Nat × List Nat)) (k : Nat) (v : List Nat) :
    List (Nat × List Nat) :=
  if (l.find? (fun p => p.1 == k)).isSome then
    l.map (fun p => if p.1 == k then (k, v) else p)
  else l ++ [(k, v)]

/-- Room-map removal: `del active_connections[session_id]`. -/
def room_del (l : List (Nat × List Nat)) (k : Nat) : List (Nat × List Nat) :=
  l.filter (fun p => p.1 != k)

/-- `ConnectionManager` state, `app/core/websocket.py` lines 18-32:
a room directory `session_id -> set of sockets` (sets are modelled as
duplicate-free lists in insertion order) plus the reverse maps
`socket -> user_id` and `socket -> session_id`. -/
structure ConnectionManager where
  active_connections : List (Nat × List Nat)
  connection_users : List (Nat × Nat)
  connection_sessions : List (Nat × Nat)
deriving DecidableEq, Repr

/-- The manager with no connections (module-level `manager` at startup). -/
def ConnectionManager.empty : ConnectionManager :=
  { active_connections := [], connection_users := [], connection_sessions := [] }

/-- `ConnectionManager.connect`, `app/core/websocket.py` lines 34-57:
creates the room lazily, adds the socket to the room set and records the
user and session of the socket. -/
def ConnectionManager.connect (m : ConnectionManager) (ws session_id user_id : Nat) :
    ConnectionManager :=
  let room := (room_get m.active_connections session_id).getD []
  let room := if ws ∈ room then room else room ++ [ws]
  { active_connections := room_set m.active_connections session_id room
    connection_users := alist_set m.connection_users ws user_id
    connection_sessions := alist_set m.connection_sessions ws session_id }

/-- `ConnectionManager.disconnect`, `app/core/websocket.py` lines 59-83:
looks the socket's session up, and — when that id is truthy and the room
exists — discards the socket from the room, deleting the room once empty;
then drops both reverse-map entries. -/
def ConnectionManager.disconnect (m : ConnectionManager) (ws : Nat) :
    ConnectionManager :=
  let m1 :=
    match alist_get m.connection_sessions ws with
    | some session_id =>
      if session_id ≠ 0 ∧ (room_get m.active_connections session_id).isSome then
        let room := ((room_get m.active_connections session_id).getD []).filter (fun c => c != ws)
        if room = [] then
          { m with active_connections := room_del m.active_connections session_id }
        else
          { m with active_connections := room_set m.active_connections session_id room }
      else m
    | none => m
  { m1 with
      connection_users := alist_del m1.connection_users ws
      connection_sessions := alist_del m1.connection_sessions ws }

/-- `ConnectionManager.send_personal_message`, `app/core/websocket.py`
lines 85-96: sends to exactly one socket; an exception is swallowed, so a
broken socket simply receives nothing and nothing else happens. Returns
the delivery list. -/
def ConnectionManager.send_personal_message (ws : Nat) (broken : List Nat) : List Nat :=
  if broken.contains ws then [] else [ws]

/-- `ConnectionManager.broadcast_to_session`, `app/core/websocket.py`
lines 98-130: no-op on an unknown room; otherwise attempts delivery to
every room member except `exclude`, collecting members whose send raised,
and finally disconnects each of those. Returns the new manager state and
the list of sockets the message was delivered to. -/
def ConnectionManager.broadcast_to_session (m : ConnectionManager)
    (session_id : Nat) (exclude : Option Nat) (broken : List Nat) :
    ConnectionManager × List Nat :=
  match room_get m.active_connections session_id with
  | none => (m, [])
  | some room =>
    let targets := room.filter (fun c => some c ≠ exclude)
    let delivered := targets.filter (fun c => ¬ broken.contains c)
    let disconnected := targets.filter (fun c => broken.contains c)
    (disconnected.foldl (fun acc c => acc.disconnect c) m, delivered)

/-- `ConnectionManager.broadcast_to_all_except_sender`,
`app/core/websocket.py` lines 132-146: resolves the sender's session and,
when truthy, broadcasts to that room excluding the sender. -/
def ConnectionManager.broadcast_to_all_except_sender (m : ConnectionManager)
    (ws : Nat) (broken : List Nat) : ConnectionManager × List Nat :=
  match alist_get m.connection_sessions ws with
  | some session_id =>
    if session_id ≠ 0 then m.broadcast_to_session session_id (some ws) broken
    else (m, [])
  | none => (m, [])

/-! The websocket endpoint `websocket_session_endpoint` from
`app/api/v1/ws_sessions.py`, split as in the source into the connect-time
checks (lines 103-164) and the per-message body of the read loop
(lines 167-243). -/

/-- Inbound websocket messages, dispatched on `data.get("type")`
(`app/schemas/websocket_events.py` event names): `PING`,
`TEACHER_PRESENCE`, the three whiteboard kinds, and anything else, which
the loop ignores. -/
inductive WsInMessage where
  | ping
  | teacher_presence
  | whiteboard (t : WhiteboardEventType) (payload : String)
  | other
deriving DecidableEq, Repr

/-- Outbound websocket messages produced by the loop body. -/
inductive WsOutMessage where
  | pong
  | teacher_presence_event (teacher_id : Nat)
  | whiteboard_event (t : WhiteboardEventType) (payload : String) (created_by_id : Nat)
  | error_event (error_code : String) (error_message : String)
deriving DecidableEq, Repr

/-- Result of one iteration of the read loop: the database and manager
afterwards, plus every (recipient socket, message) delivery made. -/
structure LoopStep where
  db : DBState
  mgr : ConnectionManager
  sent : List (Nat × WsOutMessage)
deriving DecidableEq, Repr

/-- The body of the read loop of `websocket_session_endpoint`,
`app/api/v1/ws_sessions.py` lines 167-243, for one inbound message from
the connected socket `ws` of `current_user`. PING is answered with PONG
to the sender; TEACHER_PRESENCE from a teacher is broadcast to the rest
of the room; DRAW/ERASE/CLEAR from a non-teacher yields a
PERMISSION_DENIED ERROR to the sender only, while from a teacher it is
inserted as a `WhiteboardEvent` row and then broadcast to the rest of the
room. The loop never consults the session's current status. -/
def handle_ws_message (db : DBState) (mgr : ConnectionManager) (current_user : User)
    (session_id ws : Nat) (broken : List Nat) (msg : WsInMessage) : LoopStep :=
  match msg with
  | .ping =>
    { db := db, mgr := mgr
      sent := (ConnectionManager.send_personal_message ws broken).map (fun r => (r, .pong)) }
  | .teacher_presence =>
    if current_user.role = .TEACHER then
      let (m, recipients) := mgr.broadcast_to_all_except_sender ws broken
      { db := db, mgr := m
        sent := recipients.map (fun r => (r, .teacher_presence_event current_user.id)) }
    else { db := db, mgr := mgr, sent := [] }
  | .whiteboard t payload =>
    if current_user.role ≠ .TEACHER then
      { db := db, mgr := mgr
        sent := (ConnectionManager.send_personal_message ws broken).map
          (fun r => (r, .error_event "PERMISSION_DENIED" "Only teachers can draw on whiteboard")) }
    else
      let wb_event : WhiteboardEvent :=
        { id := db.next_id
          session_id := session_id
          created_by_id := current_user.id
          event_type := t
          payload := payload }
      let db := { db with
                    whiteboard_events := db.whiteboard_events ++ [wb_event]
                    next_id := db.next_id + 1 }
      let (m, recipients) := mgr.broadcast_to_all_except_sender ws broken
      { db := db, mgr := m
        sent := recipients.map (fun r => (r, .whiteboard_event t payload current_user.id)) }
  | .other => { db := db, mgr := mgr, sent := [] }

/-- The session-status check of `websocket_session_endpoint`,
`app/api/v1/ws_sessions.py` line 114: Python first evaluates the list
`[LessonSessionStatus.ACTIVE, LessonSessonStatus.PENDING]`; the enum
defines no `PENDING` member, so an `AttributeError` is raised before the
membership test. -/
def ws_status_check (session : LessonSession) : Except ApiError Bool :=
  match LessonSessionStatus.lookup "PENDING" with
  | none => .error (.attributeError "PENDING")
  | some pending =>
    .ok (session.status == .ACTIVE || session.status == pending)

/-- Outcome of the role/ownership/attendance dispatch. -/
inductive GateResult where
  | deny (code : Nat) (reason : String)
  | allow
deriving DecidableEq, Repr

/-- The connect-time access dispatch of `websocket_session_endpoint`,
`app/api/v1/ws_sessions.py` lines 119-148: a STUDENT must be in the
session's class and must have a daily `Attendance` row for `today` whose
status is not ABSENT; a TEACHER must own the session; a user of any other
role matches neither branch and is subject to no check at all. -/
def ws_access_gate (db : DBState) (current_user : User) (session : LessonSession)
    (today : Nat) : Except ApiError GateResult :=
  if current_user.role = .STUDENT then
    if current_user.class_id ≠ some session.class_id then
      .ok (.deny 4003 "Not your class session")
    else
      match scalar_one_or_none (db.attendance.filter
        (fun a => a.student_id == current_user.id && a.date == today)) with
      | .error e => .error e
      | .ok none => .ok (.deny 4003 "School attendance not marked yet")
      | .ok (some record) =>
        if record.status = .ABSENT then .ok (.deny 4003 "You are marked ABSENT today")
        else .ok .allow
  else if current_user.role = .TEACHER then
    if current_user.id ≠ session.teacher_id then .ok (.deny 4003 "Not your session")
    else .ok .allow
  else .ok .allow

/-- Result of the connect-time part of the endpoint: either the socket is
closed with a code and reason, or the user is registered in the room. -/
inductive WsConnectResult where
  | closed (code : Nat) (reason : String)
  | connected (mgr : ConnectionManager)
deriving DecidableEq, Repr

/-- The connect-time part of `websocket_session_endpoint`,
`app/api/v1/ws_sessions.py` lines 103-151, after token authentication:
close 4004 when the session does not exist; then the status check of
line 114, whose `AttributeError` is caught by the endpoint's generic
`except Exception` handler (lines 251-253) and closes the socket with
code 1011; then the access dispatch, closing with the denial code on
deny; on allow, `manager.connect` registers the socket in the room. -/
def websocket_session_endpoint (db : DBState) (mgr : ConnectionManager)
    (current_user : User) (session_id ws today : Nat) : WsConnectResult :=
  match db_get_session db session_id with
  | none => .closed 4004 "Session not found"
  | some session =>
    match ws_status_check session with
    | .error _ => .closed 1011 "Internal server error"
    | .ok false => .closed 4003 "Session not active"
    | .ok true =>
      match ws_access_gate db current_user session today with
      | .error _ => .closed 1011 "Internal server error"
      | .ok (.deny code reason) => .closed code reason
      | .ok .allow => .connected (mgr.connect ws session_id current_user.id)

/-- The `finally` block of `websocket_session_endpoint`,
`app/api/v1/ws_sessions.py` lines 254-269: the socket is removed from the
registry, and when the departing user is a STUDENT a STUDENT_LEFT event
is broadcast to the session room. Nothing touches the database; in
particular no `SessionAttendance.left_at` is written. -/
def ws_disconnect_cleanup (db : DBState) (mgr : ConnectionManager)
    (current_user : User) (session_id ws : Nat) (broken : List Nat) :
    DBState × ConnectionManager :=
  let mgr := mgr.disconnect ws
  if current_user.role = .STUDENT then
    (db, (mgr.broadcast_to_session session_id none broken).1)
  else (db, mgr)

/-! Operation sequences over the subsystem, for stating state invariants:
every entry point of the live-session subsystem, applied to the combined
database and connection-registry state. REST handlers that fail leave the
state unchanged (their transaction is never committed). -/

/-- One invocation of a subsystem entry point. -/
inductive SubsystemOp where
  | start_op (u : User) (schedule_id : Nat) (topic : Option String) (now : Nat)
  | join_op (u : User) (session_id now : Nat)
  | end_op (u : User) (session_id now : Nat)
  | cancel_op (u : User) (session_id now : Nat)
  | ws_connect_op (u : User) (session_id ws today : Nat)
  | ws_message_op (u : User) (session_id ws : Nat) (broken : List Nat) (msg : WsInMessage)
  | ws_disconnect_op (u : User) (session_id ws : Nat) (broken : List Nat)
deriving DecidableEq, Repr

/-- Combined state of the subsystem. -/
structure SysState where
  db : DBState
  mgr : ConnectionManager
deriving DecidableEq, Repr

/-- Applies one subsystem operation to the combined state. -/
def applyOp (st : SysState) (op : SubsystemOp) : SysState :=
  match op with
  | .start_op u schedule_id topic now =>
    match start_session st.db u schedule_id topic now with
    | .ok (db, _) => { st with db := db }
    | .error _ => st
  | .join_op u session_id now =>
    match join_session st.db u session_id now with
    | .ok (db, _) => { st with db := db }
    | .error _ => st
  | .end_op u session_id now =>
    match end_session st.db u session_id now with
    | .ok (db, _) => { st with db := db }
    | .error _ => st
  | .cancel_op u session_id now =>
    match cancel_session st.db u session_id now with
    | .ok (db, _) => { st with db := db }
    | .error _ => st
  | .ws_connect_op u session_id ws today =>
    match websocket_session_endpoint st.db st.mgr u session_id ws today with
    | .closed _ _ => st
    | .connected mgr => { st with mgr := mgr }
  | .ws_message_op u session_id ws broken msg =>
    let step := handle_ws_message st.db st.mgr u session_id ws broken msg
    { db := step.db, mgr := step.mgr }
  | .ws_disconnect_op u session_id ws broken =>
    let (db, mgr) := ws_disconnect_cleanup st.db st.mgr u session_id ws broken
    { db := db, mgr := mgr }

/-- Applies a sequence of subsystem operations in order. -/
def applyOps (st : SysState) (ops : List SubsystemOp) : SysState :=
  ops.foldl applyOp st

/-! Concrete fixtures used by counterexamples and witnesses. -/

/-- A teacher, id 10. -/
def exTeacher : User := { id := 10, role := .TEACHER, class_id := none }

/-- A student in class 5, id 20. -/
def exStudent : User := { id := 20, role := .STUDENT, class_id := some 5 }

/-- A school administrator, id 90. -/
def exAdmin : User := { id := 90, role := .SCHOOL_ADMIN, class_id := none }

/-- Schedule 1: teacher 10, class 5, subject 7. -/
def exSchedule : Schedule := { id := 1, teacher_id := 10, class_id := 5, subject_id := 7 }

/-- Session 1 on schedule 1, ACTIVE, owned by teacher 10, class 5. -/
def exActiveSession : LessonSession :=
  { id := 1, schedule_id := 1, teacher_id := 10, class_id := 5, subject_id := 7
    status := .ACTIVE, started_at := 100, ended_at := none, topic := none }

/-- Session 2 on schedule 1, already ENDED at time 50. -/
def exEndedSession : LessonSession :=
  { id := 2, schedule_id := 1, teacher_id := 10, class_id := 5, subject_id := 7
    status := .ENDED, started_at := 40, ended_at := some 50, topic := none }

/-- Database holding the active session 1 and the ended session 2. -/
def exDb : DBState :=
  { schedules := [exSchedule], sessions := [exActiveSession, exEndedSession]
    session_attendance := [], attendance := [], whiteboard_events := [], next_id := 3 }

/-- The registry after the owning teacher's socket 100 joined session 2's room. -/
def exMgrTeacherIn2 : ConnectionManager := ConnectionManager.empty.connect 100 2 10

/-- C3 divergence evaluated on the code: cancelling the live session 1 by
its owning teacher raises `AttributeError` on the missing enum member
`CANCELLED` (an HTTP 500, no mutation committed) instead of succeeding,
while cancelling the ENDED session 2 fails with the 400
invalid-transition error exactly as claimed. -/
theorem C3_cancel_crashes_on_live_session :
    cancel_session exDb exTeacher 1 60 = .error (.attributeError "CANCELLED") ∧
    cancel_session exDb exTeacher 2 60 = .error (.http 400 "Cannot cancel ended session") := by
  constructor <;> rfl

/-- C4 counterexample: calling end on session 2, which is already ENDED
(`ended_at = 50`), by its owning teacher does not fail with an
invalid-transition error: it succeeds and overwrites `ended_at` with the
new time 999, refuting the claim that a terminal session cannot be ended
again and is left unmutated. -/
theorem C4_counterexample_end_of_ended_session_succeeds :
    end_session exDb exTeacher 2 999 =
      .ok ({ exDb with sessions :=
               [exActiveSession, { exEndedSession with ended_at := some 999 }] },
           { exEndedSession with ended_at := some 999 }) := by
  rfl

/-- C5 counterexample: a SCHOOL_ADMIN connecting to the existing ACTIVE
session 1 is closed with code 1011 (the endpoint's generic internal-error
handler, reached because the status check evaluates the undefined
`LessonSessionStatus.PENDING`), not with an authorization close code
(4003 forbidden / 4001 unauthenticated), refuting the claim that other
roles are denied with a hard authorization error. -/
theorem C5_counterexample_admin_closed_with_internal_error :
    websocket_session_endpoint exDb ConnectionManager.empty exAdmin 1 300 7 =
      .closed 1011 "Internal server error" ∧
    (1011 : Nat) ≠ 4003 ∧ (1011 : Nat) ≠ 4001 := by
  refine ⟨rfl, by decide, by decide⟩

/-- C2 counterexample: session 2 is ENDED (its end has run), its owning
teacher is still registered in the room on socket 100, and a DRAW sent by
that teacher is persisted: a new `WhiteboardEvent` row is appended,
refuting the claim that every DRAW/ERASE/CLEAR after end is rejected and
adds no row. -/
theorem C2_counterexample_draw_persisted_after_end :
    (db_get_session exDb 2).map LessonSession.status = some .ENDED ∧
    (handle_ws_message exDb exMgrTeacherIn2 exTeacher 2 100 [] (.whiteboard .DRAW "line")).db.whiteboard_events =
      [{ id := 3, session_id := 2, created_by_id := 10, event_type := .DRAW, payload := "line" }] := by
  constructor <;> rfl

/-- C6 on the code: a student of the right class whose daily attendance
for day 7 is ABSENT is indeed denied by the access dispatch of lines
119-148 with code 4003 (as is a student with no record at all, while a
PRESENT record passes) — but the endpoint as a whole closes the socket
with 1011 before that dispatch ever runs, because the status check at
line 114 evaluates the undefined `PENDING` member. -/
theorem C6_absent_student_closed_1011_not_4003 :
    websocket_session_endpoint
        { exDb with attendance := [{ student_id := 20, date := 7, status := .ABSENT }] }
        ConnectionManager.empty exStudent 1 200 7 =
      .closed 1011 "Internal server error" ∧
    ws_access_gate { exDb with attendance := [{ student_id := 20, date := 7, status := .ABSENT }] }
        exStudent exActiveSession 7 = .ok (.deny 4003 "You are marked ABSENT today") ∧
    ws_access_gate exDb exStudent exActiveSession 7 =
      .ok (.deny 4003 "School attendance not marked yet") ∧
    ws_access_gate { exDb with attendance := [{ student_id := 20, date := 7, status := .PRESENT }] }
        exStudent exActiveSession 7 = .ok .allow ∧
    ws_access_gate { exDb with attendance := [{ student_id := 20, date := 7, status := .LATE }] }
        exStudent exActiveSession 7 = .ok .allow ∧
    ws_access_gate { exDb with attendance := [{ student_id := 20, date := 7, status := .EXCUSED }] }
        exStudent exActiveSession 7 = .ok .allow := by
  exact ⟨rfl, rfl, rfl, rfl, rfl, rfl⟩

/-- C7: a whiteboard message (DRAW, ERASE or CLEAR) from any connected
non-teacher sender persists nothing — the database is unchanged, so no
`WhiteboardEvent` row is added — delivers the PERMISSION_DENIED ERROR to
the sender's socket and to no one else, and leaves the connection
registry untouched, so every connection in the room stays open. -/
theorem C7_nonteacher_draw_error_to_sender_only
    (db : DBState) (mgr : ConnectionManager) (u : User) (session_id ws : Nat)
    (broken : List Nat) (t : WhiteboardEventType) (payload : String)
    (hrole : u.role ≠ .TEACHER) (hws : broken.contains ws = false) :
    handle_ws_message db mgr u session_id ws broken (.whiteboard t payload) =
      { db := db, mgr := mgr
        sent := [(ws, .error_event "PERMISSION_DENIED" "Only teachers can draw on whiteboard")] } := by
  have hmem : ws ∉ broken := by simpa using hws
  simp [handle_ws_message, hrole, ConnectionManager.send_personal_message, hws, hmem]

/-- C7 witness: a student sending DRAW over healthy socket 200. -/
theorem C7_witness :
    handle_ws_message exDb exMgrTeacherIn2 exStudent 2 200 [] (.whiteboard .DRAW "p") =
      { db := exDb, mgr := exMgrTeacherIn2
        sent := [(200, .error_event "PERMISSION_DENIED" "Only teachers can draw on whiteboard")] } :=
  C7_nonteacher_draw_error_to_sender_only exDb exMgrTeacherIn2 exStudent 2 200 [] .DRAW "p"
    (by decide) (by decide)

/-- C2 amended: a whiteboard append over the session connection is gated
on the sender's role only, never on the session's status. For every
database state — in particular whatever the session's current status, so
also after end or cancel has run — a DRAW/ERASE/CLEAR from a non-teacher
adds no `WhiteboardEvent` row (the database is unchanged), while one from
a teacher who is still connected appends exactly one row; session status
is enforced only at connect time. -/
theorem C2_amended_append_gated_by_role_not_status
    (db : DBState) (mgr : ConnectionManager) (u : User) (session_id ws : Nat)
    (broken : List Nat) (t : WhiteboardEventType) (payload : String) :
    (u.role ≠ .TEACHER →
      (handle_ws_message db mgr u session_id ws broken (.whiteboard t payload)).db = db) ∧
    (u.role = .TEACHER →
      (handle_ws_message db mgr u session_id ws broken (.whiteboard t payload)).db.whiteboard_events =
        db.whiteboard_events ++
          [{ id := db.next_id, session_id := session_id, created_by_id := u.id
             event_type := t, payload := payload }]) := by
  constructor
  · intro h
    simp [handle_ws_message, h]
  · intro h
    simp [handle_ws_message, h]

/-- C2 amended witness: the owning teacher's DRAW on the ENDED session 2
appends a row. -/
theorem C2_amended_witness :
    (handle_ws_message exDb exMgrTeacherIn2 exTeacher 2 100 [] (.whiteboard .ERASE "q")).db.whiteboard_events =
      exDb.whiteboard_events ++
        [{ id := 3, session_id := 2, created_by_id := 10, event_type := .ERASE, payload := "q" }] :=
  (C2_amended_append_gated_by_role_not_status exDb exMgrTeacherIn2 exTeacher 2 100 [] .ERASE "q").2
    (by decide)

/-- C4 amended: the end operation performs no status check at all. When
the session exists and the caller is a TEACHER, end succeeds exactly when
the caller owns the session — whatever the current status, so an already
ENDED session is simply re-ended, with `ended_at` overwritten by the new
current time — setting status ENDED and `ended_at = now`; a teacher who
does not own the session fails with the 403 not-authorized error of
`require_session_access`. -/
theorem C4_amended_end_ignores_status
    (db : DBState) (u : User) (session_id now : Nat) (session : LessonSession)
    (hrole : u.role = .TEACHER)
    (hget : db_get_session db session_id = some session) :
    (session.teacher_id = u.id →
      end_session db u session_id now =
        .ok ({ db with sessions := db.sessions.map (fun s =>
                 if s.id == session.id then
                   { session with status := .ENDED, ended_at := some now } else s) },
             { session with status := .ENDED, ended_at := some now })) ∧
    (session.teacher_id ≠ u.id →
      end_session db u session_id now = .error (.http 403 "Not authorized to access this session")) := by
  constructor
  · intro h
    simp [end_session, require_session_access, hget, hrole, h, require_roles]
  · intro h
    simp [end_session, require_session_access, hget, hrole, h]

/-- C4 amended witness: re-ending the ENDED session 2 by its owner. -/
theorem C4_amended_witness :
    end_session exDb exTeacher 2 999 =
      .ok ({ exDb with sessions := exDb.sessions.map (fun s =>
               if s.id == exEndedSession.id then
                 { exEndedSession with status := .ENDED, ended_at := some 999 } else s) },
           { exEndedSession with status := .ENDED, ended_at := some 999 }) :=
  (C4_amended_end_ignores_status exDb exTeacher 2 999 exEndedSession (by decide) (by decide)).1
    (by decide)

/-- C5 amended: for every user connecting to an existing session —
whatever the user's role — the handshake is terminated before
registration with internal-error close code 1011, because the status
check evaluates the undefined `PENDING` enum member; and the
role-dispatch itself (lines 119-148) contains no branch denying a role
other than TEACHER or STUDENT: such a user passes the gate as allowed. -/
theorem C5_amended_no_role_denial
    (db : DBState) (mgr : ConnectionManager) (u : User) (session_id ws today : Nat)
    (session : LessonSession)
    (hget : db_get_session db session_id = some session) :
    websocket_session_endpoint db mgr u session_id ws today =
      .closed 1011 "Internal server error" ∧
    (u.role ≠ .TEACHER → u.role ≠ .STUDENT →
      ws_access_gate db u session today = .ok .allow) := by
  constructor
  · simp [websocket_session_endpoint, hget, ws_status_check, LessonSessionStatus.lookup]
  · intro h1 h2
    simp [ws_access_gate, h1, h2]

/-- C5 amended witness: a SCHOOL_ADMIN at session 1. -/
theorem C5_amended_witness :
    websocket_session_endpoint exDb ConnectionManager.empty exAdmin 1 300 7 =
      .closed 1011 "Internal server error" ∧
    ws_access_gate exDb exAdmin exActiveSession 7 = .ok .allow :=
  ⟨(C5_amended_no_role_denial exDb ConnectionManager.empty exAdmin 1 300 7 exActiveSession
      (by decide)).1,
   (C5_amended_no_role_denial exDb ConnectionManager.empty exAdmin 1 300 7 exActiveSession
      (by decide)).2 (by decide) (by decide)⟩

/-- In the source enum a status satisfies the spec's "PENDING or ACTIVE"
exactly when it is ACTIVE: the enum defines no PENDING member. -/
theorem isPendingOrActive_iff (st : LessonSessionStatus) :
    st.isPendingOrActive = true ↔ st = .ACTIVE := by
  cases st <;> decide

/-- C1: assuming the caller is a TEACHER, the schedule exists and the
caller is its assigned teacher, and the database satisfies the at most
one ACTIVE session per schedule invariant: whenever a `LessonSession`
for that schedule with a status in the spec's set PENDING-or-ACTIVE
already exists, start fails with the 400 duplicate-active-session error
(and, the result being an error, no row is created); and whenever no such
session exists, start succeeds creating exactly one new session — the
sessions list grows by exactly that one row — with status ACTIVE and
`started_at` equal to the current time. -/
theorem C1_start_duplicate_gate_and_creation
    (db : DBState) (u : User) (schedule : Schedule) (topic : Option String) (now : Nat)
    (hrole : u.role = .TEACHER)
    (hsched : db.schedules.find? (fun s => s.id == schedule.id) = some schedule)
    (howner : schedule.teacher_id = u.id)
    (hinv : (db.sessions.filter
        (fun s => s.schedule_id == schedule.id && s.status == LessonSessionStatus.ACTIVE)).length ≤ 1) :
    ((∃ s ∈ db.sessions, s.schedule_id = schedule.id ∧ s.status.isPendingOrActive = true) →
      start_session db u schedule.id topic now =
        .error (.http 400 "An active session already exists for this schedule")) ∧
    ((¬ ∃ s ∈ db.sessions, s.schedule_id = schedule.id ∧ s.status.isPendingOrActive = true) →
      ∃ ns, start_session db u schedule.id topic now =
          .ok ({ db with sessions := db.sessions ++ [ns], next_id := db.next_id + 1 }, ns) ∧
        ns.status = .ACTIVE ∧ ns.started_at = now ∧ ns.schedule_id = schedule.id ∧
        ns.teacher_id = u.id) := by
  constructor
  · intro hex
    obtain ⟨s, hs, hsch, hact⟩ := hex
    rw [isPendingOrActive_iff] at hact
    have hmem : s ∈ db.sessions.filter
        (fun s => s.schedule_id == schedule.id && s.status == LessonSessionStatus.ACTIVE) := by
      rw [List.mem_filter]
      exact ⟨hs, by simp [hsch, hact]⟩
    have hpos : 0 < (db.sessions.filter
        (fun s => s.schedule_id == schedule.id && s.status == LessonSessionStatus.ACTIVE)).length :=
      List.length_pos.mpr (List.ne_nil_of_mem hmem)
    have hlen : (db.sessions.filter
        (fun s => s.schedule_id == schedule.id && s.status == LessonSessionStatus.ACTIVE)).length = 1 :=
      le_antisymm hinv hpos
    obtain ⟨a, ha⟩ := List.length_eq_one.mp hlen
    simp [start_session, require_roles, hrole, hsched, howner, ha, scalar_one_or_none]
  · intro hnex
    have hnil : db.sessions.filter
        (fun s => s.schedule_id == schedule.id && s.status == LessonSessionStatus.ACTIVE) = [] := by
      rw [List.filter_eq_nil_iff]
      intro s hs
      simp only [Bool.and_eq_true, beq_iff_eq, not_and]
      intro hsch hact
      exact hnex ⟨s, hs, hsch, (isPendingOrActive_iff s.status).mpr hact⟩
    refine ⟨{ id := db.next_id, schedule_id := schedule.id, teacher_id := u.id
              class_id := schedule.class_id, subject_id := schedule.subject_id
              status := .ACTIVE, started_at := now, ended_at := none, topic := topic },
            ?_, rfl, rfl, rfl, rfl⟩
    simp [start_session, require_roles, hrole, hsched, howner, hnil, scalar_one_or_none]

/-- C1 witness: teacher 10 starts a session on schedule 1 in a database
with no session for that schedule. -/
theorem C1_witness :
    ∃ ns, start_session
        { schedules := [exSchedule], sessions := [], session_attendance := []
          attendance := [], whiteboard_events := [], next_id := 1 } exTeacher 1 none 42 =
        .ok ({ schedules := [exSchedule], sessions := [ns], session_attendance := []
               attendance := [], whiteboard_events := [], next_id := 2 }, ns) ∧
      ns.status = .ACTIVE ∧ ns.started_at = 42 ∧ ns.schedule_id = 1 ∧ ns.teacher_id = 10 := by
  have h := (C1_start_duplicate_gate_and_creation
    { schedules := [exSchedule], sessions := [], session_attendance := []
      attendance := [], whiteboard_events := [], next_id := 1 }
    exTeacher exSchedule none 42 (by decide) (by decide) (by decide) (by decide)).2
    (by simp)
  simpa using h

/-- C9: join is idempotent with respect to attendance. Whenever join
returns successfully: if no `SessionAttendance` row for this (session,
student) pair existed, exactly one new row with `joined_at = now` (and
null `left_at`) is appended and the pair now has exactly one row; if a
row already existed, the attendance table is unchanged; and for every
(session, student) pair, the at most one row invariant is preserved, so
at most one row per pair ever exists. -/
theorem C9_join_idempotent_single_attendance_row
    (db db' : DBState) (u : User) (session_id now : Nat) (s : LessonSession)
    (hok : join_session db u session_id now = .ok (db', s)) :
    ((db.session_attendance.filter
        (fun a => a.session_id == session_id && a.student_id == u.id)) = [] →
      db'.session_attendance = db.session_attendance ++
        [{ id := db.next_id, session_id := session_id, student_id := u.id
           joined_at := now, left_at := none }] ∧
      (db'.session_attendance.filter
        (fun a => a.session_id == session_id && a.student_id == u.id)).length = 1) ∧
    ((db.session_attendance.filter
        (fun a => a.session_id == session_id && a.student_id == u.id)) ≠ [] →
      db'.session_attendance = db.session_attendance) ∧
    (∀ sid uid,
      (db.session_attendance.filter
        (fun a => a.session_id == sid && a.student_id == uid)).length ≤ 1 →
      (db'.session_attendance.filter
        (fun a => a.session_id == sid && a.student_id == uid)).length ≤ 1) := by
  unfold join_session at hok
  split at hok
  · exact absurd hok (by simp)
  · split at hok
    · exact absurd hok (by simp)
    · split at hok
      · exact absurd hok (by simp)
      · split at hok
        · exact absurd hok (by simp)
        · rename_i heq
          split at hok
          · exact absurd hok (by simp)
          · -- a row already existed: scalar_one_or_none returned some
            rename_i hfind
            have hdb : db' = db := by
              injection hok with h
              injection h with h1 h2
              exact h1.symm
            subst hdb
            refine ⟨?_, fun _ => rfl, fun sid uid h => h⟩
            intro hnil
            rw [hnil] at hfind
            simp [scalar_one_or_none] at hfind
          · -- no row existed: a single new row is appended
            rename_i hfind
            have hdb : db' = { db with
                session_attendance := db.session_attendance ++
                  [{ id := db.next_id, session_id := session_id, student_id := u.id
                     joined_at := now, left_at := none }]
                next_id := db.next_id + 1 } := by
              injection hok with h
              injection h with h1 h2
              exact h1.symm
            have hnil : db.session_attendance.filter
                (fun a => a.session_id == session_id && a.student_id == u.id) = [] := by
              revert hfind
              unfold scalar_one_or_none
              split
              · intro _
                assumption
              · intro h
                simp at h
              · intro h
                simp at h
            subst hdb
            refine ⟨fun _ => ⟨rfl, ?_⟩, fun hne => absurd hnil hne, ?_⟩
            · simp [List.filter_append, hnil]
            · intro sid uid h
              simp only [List.filter_append, List.length_append]
              by_cases hk : sid = session_id ∧ uid = u.id
              · obtain ⟨h1, h2⟩ := hk
                subst h1
                subst h2
                rw [hnil]
                simp
              · have : (List.filter (fun a => a.session_id == sid && a.student_id == uid)
                    [({ id := db.next_id, session_id := session_id, student_id := u.id
                        joined_at := now, left_at := none } : SessionAttendance)]) = [] := by
                  rcases not_and_or.mp hk with h | h
                  · simp [List.filter_cons, Ne.symm h]
                  · simp [List.filter_cons, Ne.symm h]
                rw [this]
                simpa using h

/-- C9 witness: student 20 joins the active session 1 twice; the first
join creates the single row, the second leaves the table unchanged. -/
theorem C9_witness :
    ({ exDb with session_attendance := [] } : DBState).session_attendance ++
        [{ id := 3, session_id := 1, student_id := 20, joined_at := 70, left_at := none }] =
      [{ id := 3, session_id := 1, student_id := 20, joined_at := 70, left_at := none }] ∧
    ({ exDb with
        session_attendance :=
          [{ id := 3, session_id := 1, student_id := 20, joined_at := 70, left_at := none }]
        next_id := 4 } : DBState).session_attendance =
      [{ id := 3, session_id := 1, student_id := 20, joined_at := 70, left_at := none }] := by
  have h1 := C9_join_idempotent_single_attendance_row
    { exDb with session_attendance := [] }
    { exDb with
        session_attendance :=
          [{ id := 3, session_id := 1, student_id := 20, joined_at := 70, left_at := none }]
        next_id := 4 }
    exStudent 1 70 exActiveSession (by rfl)
  have h2 := C9_join_idempotent_single_attendance_row
    { exDb with
        session_attendance :=
          [{ id := 3, session_id := 1, student_id := 20, joined_at := 70, left_at := none }]
        next_id := 4 }
    { exDb with
        session_attendance :=
          [{ id := 3, session_id := 1, student_id := 20, joined_at := 70, left_at := none }]
        next_id := 4 }
    exStudent 1 75 exActiveSession (by rfl)
  exact ⟨(h1.1 (by decide)).1, h2.2.1 (by decide)⟩

/-- A successful start leaves the session-attendance table unchanged. -/
theorem start_session_attendance_unchanged
    (db : DBState) (u : User) (schedule_id : Nat) (topic : Option String) (now : Nat)
    (db' : DBState) (s : LessonSession)
    (h : start_session db u schedule_id topic now = .ok (db', s)) :
    db'.session_attendance = db.session_attendance := by
  unfold start_session at h
  split at h
  · exact absurd h (by simp)
  · split at h
    · exact absurd h (by simp)
    · split at h
      · exact absurd h (by simp)
      · split at h
        · exact absurd h (by simp)
        · exact absurd h (by simp)
        · injection h with h
          injection h with h1 h2
          rw [← h1]

/-- A successful end leaves the session-attendance table unchanged. -/
theorem end_session_attendance_unchanged
    (db : DBState) (u : User) (session_id now : Nat)
    (db' : DBState) (s : LessonSession)
    (h : end_session db u session_id now = .ok (db', s)) :
    db'.session_attendance = db.session_attendance := by
  unfold end_session at h
  split at h
  · exact absurd h (by simp)
  · split at h
    · exact absurd h (by simp)
    · injection h with h
      injection h with h1 h2
      rw [← h1]

/-- A successful cancel leaves the session-attendance table unchanged. -/
theorem cancel_session_attendance_unchanged
    (db : DBState) (u : User) (session_id now : Nat)
    (db' : DBState) (s : LessonSession)
    (h : cancel_session db u session_id now = .ok (db', s)) :
    db'.session_attendance = db.session_attendance := by
  unfold cancel_session at h
  split at h
  · exact absurd h (by simp)
  · split at h
    · exact absurd h (by simp)
    · split at h
      · exact absurd h (by simp)
      · split at h
        · exact absurd h (by simp)
        · injection h with h
          injection h with h1 h2
          rw [← h1]

/-- A successful join only ever adds a row whose `left_at` is null. -/
theorem join_session_attendance_left_at
    (db : DBState) (u : User) (session_id now : Nat)
    (db' : DBState) (s : LessonSession)
    (h : join_session db u session_id now = .ok (db', s)) :
    ∀ r ∈ db'.session_attendance, r ∈ db.session_attendance ∨ r.left_at = none := by
  unfold join_session at h
  split at h
  · exact absurd h (by simp)
  · split at h
    · exact absurd h (by simp)
    · split at h
      · exact absurd h (by simp)
      · split at h
        · exact absurd h (by simp)
        · split at h
          · exact absurd h (by simp)
          · injection h with h
            injection h with h1 h2
            rw [← h1]
            intro r hr
            exact .inl hr
          · injection h with h
            injection h with h1 h2
            rw [← h1]
            intro r hr
            rcases List.mem_append.mp hr with hmem | hmem
            · exact .inl hmem
            · right
              rw [List.mem_singleton.mp hmem]

/-- The read-loop body never touches the session-attendance table. -/
theorem handle_ws_message_attendance_unchanged
    (db : DBState) (mgr : ConnectionManager) (u : User) (session_id ws : Nat)
    (broken : List Nat) (msg : WsInMessage) :
    (handle_ws_message db mgr u session_id ws broken msg).db.session_attendance =
      db.session_attendance := by
  cases msg with
  | ping => rfl
  | teacher_presence =>
    by_cases h : u.role = .TEACHER <;> simp [handle_ws_message, h]
  | whiteboard t payload =>
    by_cases h : u.role = .TEACHER <;> simp [handle_ws_message, h]
  | other => rfl

/-- The disconnect cleanup path returns the database untouched. -/
theorem ws_disconnect_cleanup_db_unchanged
    (db : DBState) (mgr : ConnectionManager) (u : User) (session_id ws : Nat)
    (broken : List Nat) :
    (ws_disconnect_cleanup db mgr u session_id ws broken).1 = db := by
  by_cases h : u.role = .STUDENT <;> simp [ws_disconnect_cleanup, h]

/-- Any single subsystem operation only keeps existing attendance rows or
adds rows whose `left_at` is null. -/
theorem applyOp_attendance_left_at (st : SysState) (op : SubsystemOp) :
    ∀ r ∈ (applyOp st op).db.session_attendance,
      r ∈ st.db.session_attendance ∨ r.left_at = none := by
  cases op with
  | start_op u schedule_id topic now =>
    simp only [applyOp]
    split
    · rename_i db s h
      rw [start_session_attendance_unchanged st.db u schedule_id topic now db s h]
      exact fun r hr => .inl hr
    · exact fun r hr => .inl hr
  | join_op u session_id now =>
    simp only [applyOp]
    split
    · rename_i db s h
      exact join_session_attendance_left_at st.db u session_id now db s h
    · exact fun r hr => .inl hr
  | end_op u session_id now =>
    simp only [applyOp]
    split
    · rename_i db s h
      rw [end_session_attendance_unchanged st.db u session_id now db s h]
      exact fun r hr => .inl hr
    · exact fun r hr => .inl hr
  | cancel_op u session_id now =>
    simp only [applyOp]
    split
    · rename_i db s h
      rw [cancel_session_attendance_unchanged st.db u session_id now db s h]
      exact fun r hr => .inl hr
    · exact fun r hr => .inl hr
  | ws_connect_op u session_id ws today =>
    simp only [applyOp]
    split
    · exact fun r hr => .inl hr
    · exact fun r hr => .inl hr
  | ws_message_op u session_id ws broken msg =>
    simp only [applyOp]
    rw [handle_ws_message_attendance_unchanged st.db st.mgr u session_id ws broken msg]
    exact fun r hr => .inl hr
  | ws_disconnect_op u session_id ws broken =>
    simp only [applyOp, ws_disconnect_cleanup]
    by_cases h : u.role = .STUDENT <;> simp [h] <;> exact fun r hr => .inl hr

/-- C10: no operation of the subsystem ever writes a non-null `left_at`.
Starting from any state where every session-attendance row has null
`left_at` (in particular the empty initial state), after any sequence of
subsystem operations — joins, lifecycle changes, websocket connects,
in-band messages and the disconnect path, which only broadcasts
STUDENT_LEFT — every row still has null `left_at`, and consequently a
null `duration_minutes`. -/
theorem C10_left_at_never_written (st : SysState) (ops : List SubsystemOp)
    (h0 : ∀ r ∈ st.db.session_attendance, r.left_at = none) :
    ∀ r ∈ (applyOps st ops).db.session_attendance,
      r.left_at = none ∧ r.duration_minutes = none := by
  suffices h : ∀ r ∈ (applyOps st ops).db.session_attendance, r.left_at = none by
    intro r hr
    refine ⟨h r hr, ?_⟩
    simp [SessionAttendance.duration_minutes, h r hr]
  induction ops generalizing st with
  | nil => exact h0
  | cons op rest ih =>
    show ∀ r ∈ (applyOps (applyOp st op) rest).db.session_attendance, _
    apply ih
    intro r hr
    rcases applyOp_attendance_left_at st op r hr with h | h
    · exact h0 r h
    · exact h

/-- The initial state of the subsystem used by the C10 witness: one
schedule, no sessions, no connections. -/
def exStartState : SysState :=
  { db := { schedules := [exSchedule], sessions := [], session_attendance := []
            attendance := [], whiteboard_events := [], next_id := 1 }
    mgr := .empty }

/-- C10 witness: after teacher 10 starts a session and student 20 joins
it, the one attendance row created has null `left_at` and null
`duration_minutes`. -/
theorem C10_witness :
    (applyOps exStartState
        [.start_op exTeacher 1 none 42, .join_op exStudent 1 70]).db.session_attendance =
      [{ id := 2, session_id := 1, student_id := 20, joined_at := 70, left_at := none }] ∧
    ({ id := 2, session_id := 1, student_id := 20, joined_at := 70, left_at := none } :
        SessionAttendance).left_at = none ∧
    ({ id := 2, session_id := 1, student_id := 20, joined_at := 70, left_at := none } :
        SessionAttendance).duration_minutes = none := by
  refine ⟨by rfl, ?_⟩
  have h := C10_left_at_never_written exStartState
    [.start_op exTeacher 1 none 42, .join_op exStudent 1 70]
    (by intro r hr; simp [exStartState] at hr)
    { id := 2, session_id := 1, student_id := 20, joined_at := 70, left_at := none }
    (by rw [(by rfl : (applyOps exStartState
        [.start_op exTeacher 1 none 42, .join_op exStudent 1 70]).db.session_attendance =
      [{ id := 2, session_id := 1, student_id := 20, joined_at := 70, left_at := none }])]
        exact List.mem_singleton.mpr rfl)
  exact h

/-- Updating a room entry makes it readable back. -/
theorem room_get_room_set_self (l : List (Nat × List Nat)) (k : Nat) (v : List Nat) :
    room_get (room_set l k v) k = some v := by
  unfold room_set
  split
  · rename_i hfind
    rw [room_get, List.find?_map]
    have hcomp : ((fun p => p.1 == k) ∘ (fun p =>
        if (p.1 == k) = true then ((k, v) : Nat × List Nat) else p)) = fun p => p.1 == k := by
      funext p
      by_cases hp : p.1 = k <;> simp [hp]
    rw [hcomp]
    obtain ⟨e, he⟩ := Option.isSome_iff_exists.mp hfind
    rw [he]
    have hek := List.find?_some he
    simp only [beq_iff_eq] at hek
    simp [Option.map_some, hek]
  · rw [room_get, List.find?_append]
    rename_i hfind
    rw [Option.not_isSome_iff_eq_none.mp hfind]
    simp

/-- Deleting a room entry removes it. -/
theorem room_get_room_del_self (l : List (Nat × List Nat)) (k : Nat) :
    room_get (room_del l k) k = none := by
  unfold room_get room_del
  rw [List.find?_eq_none.mpr]
  · rfl
  · intro p hp
    have h := (List.mem_filter.mp hp).2
    simp only [bne_iff_ne, ne_eq, decide_eq_true_eq] at h
    simp [h]

/-- Disconnecting a socket whose registered session is `sid` filters it
out of that room, deleting the room once empty. -/
theorem disconnect_room_update (m : ConnectionManager) (f sid : Nat) (R : List Nat)
    (hsess : alist_get m.connection_sessions f = some sid)
    (hsid : sid ≠ 0)
    (hroom : room_get m.active_connections sid = some R) :
    room_get (m.disconnect f).active_connections sid =
      if R.filter (fun c => c != f) = [] then none
      else some (R.filter (fun c => c != f)) := by
  unfold ConnectionManager.disconnect
  simp only [hsess, hroom, Option.isSome_some, Option.getD_some]
  rw [if_pos ⟨hsid, trivial⟩]
  by_cases hempty : R.filter (fun c => c != f) = []
  · rw [if_pos hempty, if_pos hempty]
    exact room_get_room_del_self _ _
  · rw [if_neg hempty, if_neg hempty]
    exact room_get_room_set_self _ _ _

/-- In a duplicate-free list containing `f`, keeping exactly the elements
equal to `f` leaves the singleton `[f]`. -/
theorem filter_contains_self_singleton (l : List Nat) (f : Nat)
    (hnodup : l.Nodup) (hf : f ∈ l) :
    l.filter (fun c => [f].contains c) = [f] := by
  induction l with
  | nil => cases hf
  | cons a t ih =>
    rcases List.mem_cons.mp hf with h | h
    · subst h
      rw [List.filter_cons_of_pos (by simp)]
      have ht : t.filter (fun c => [f].contains c) = [] := by
        rw [List.filter_eq_nil_iff]
        intro c hc
        have hne : c ≠ f := fun hcf => (List.nodup_cons.mp hnodup).1 (hcf ▸ hc)
        simp [hne]
      rw [ht]
    · by_cases haf : a = f
      · exact absurd (haf ▸ h) (List.nodup_cons.mp hnodup).1
      · rw [List.filter_cons_of_neg (by simpa using haf)]
        exact ih (List.nodup_cons.mp hnodup).2 h

/-- C8: in a room whose socket set is `R`, a broadcast during which
delivery to the one failing socket `f` raises (`broken = [f]`) still
delivers the message to every other non-excluded member; the broadcast
itself returns normally — it is a total function whose only side effect
is `disconnect f` — and it removes `f` from the room as a side effect
(deleting the room if `f` was its last member), so that a subsequent
broadcast reaches exactly the remaining members. -/
theorem C8_broadcast_failure_isolated
    (mgr : ConnectionManager) (sid f : Nat) (R : List Nat) (exclude : Option Nat)
    (hroom : room_get mgr.active_connections sid = some R)
    (hnodup : R.Nodup)
    (hsess : alist_get mgr.connection_sessions f = some sid)
    (hsid : sid ≠ 0)
    (hf : f ∈ R)
    (hexc : exclude ≠ some f) :
    (∀ c, c ∈ (mgr.broadcast_to_session sid exclude [f]).2 ↔
        (c ∈ R ∧ some c ≠ exclude ∧ c ≠ f)) ∧
    ((mgr.broadcast_to_session sid exclude [f]).1 = mgr.disconnect f) ∧
    (∀ c, c ∈ (room_get (mgr.broadcast_to_session sid exclude [f]).1.active_connections sid).getD [] ↔
        (c ∈ R ∧ c ≠ f)) ∧
    (∀ c, c ∈ ((mgr.broadcast_to_session sid exclude [f]).1.broadcast_to_session sid none []).2 ↔
        (c ∈ R ∧ c ≠ f)) := by
  have hfs : some f ≠ exclude := fun h => hexc h.symm
  have hdiscf : (R.filter (fun c => decide (some c ≠ exclude))).filter
      (fun c => [f].contains c) = [f] := by
    apply filter_contains_self_singleton _ f (hnodup.filter _)
    exact List.mem_filter.mpr ⟨hf, by simp [hfs]⟩
  have hbro1 : (mgr.broadcast_to_session sid exclude [f]).1 = mgr.disconnect f := by
    simp only [ConnectionManager.broadcast_to_session, hroom]
    rw [hdiscf]
    simp
  have hafter := disconnect_room_update mgr f sid R hsess hsid hroom
  refine ⟨?_, hbro1, ?_, ?_⟩
  · intro c
    simp only [ConnectionManager.broadcast_to_session, hroom]
    simp only [List.mem_filter, decide_eq_true_eq, ne_eq, and_assoc]
    constructor
    · rintro ⟨h1, h2, h3⟩
      refine ⟨h1, h2, ?_⟩
      simpa using h3
    · rintro ⟨h1, h2, h3⟩
      refine ⟨h1, h2, ?_⟩
      simpa using h3
  · intro c
    rw [hbro1, hafter]
    by_cases hempty : R.filter (fun c => c != f) = []
    · rw [if_pos hempty]
      simp only [Option.getD_none, List.not_mem_nil, false_iff, not_and]
      intro hcR hcf
      have := List.filter_eq_nil_iff.mp hempty c hcR
      simp only [bne_iff_ne, ne_eq, decide_eq_true_eq, not_not] at this
      exact hcf this
    · rw [if_neg hempty]
      simp [List.mem_filter]
  · intro c
    rw [hbro1]
    simp only [ConnectionManager.broadcast_to_session]
    rw [hafter]
    by_cases hempty : R.filter (fun c => c != f) = []
    · rw [if_pos hempty]
      simp only [List.not_mem_nil, false_iff, not_and]
      intro hcR hcf
      have := List.filter_eq_nil_iff.mp hempty c hcR
      simp only [bne_iff_ne, ne_eq, decide_eq_true_eq, not_not] at this
      exact hcf this
    · rw [if_neg hempty]
      simp [List.mem_filter]

/-- Registry with sockets 100 (teacher 10), 101 (student 20) and
102 (student 21) all in session 1's room. -/
def exMgrRoom3 : ConnectionManager :=
  ((ConnectionManager.empty.connect 100 1 10).connect 101 1 20).connect 102 1 21

/-- C8 witness: room of three sockets 100, 101, 102 in session 1; socket
102 is half-closed and fails during a broadcast that excludes the sender
100; socket 101 still receives it, 102 is dropped from the room, and the
next broadcast reaches both 100 and 101. -/
theorem C8_witness :
    (101 ∈ (exMgrRoom3.broadcast_to_session 1 (some 100) [102]).2) ∧
    ¬ (102 ∈ (room_get (exMgrRoom3.broadcast_to_session 1 (some 100) [102]).1.active_connections 1).getD []) ∧
    (100 ∈ ((exMgrRoom3.broadcast_to_session 1 (some 100) [102]).1.broadcast_to_session 1 none []).2) ∧
    (101 ∈ ((exMgrRoom3.broadcast_to_session 1 (some 100) [102]).1.broadcast_to_session 1 none []).2) := by
  have h := C8_broadcast_failure_isolated exMgrRoom3 1 102 [100, 101, 102] (some 100)
    (by rfl) (by decide) (by rfl) (by decide) (by decide) (by decide)
  exact ⟨(h.1 101).mpr (by decide), fun hc => by
      have := (h.2.2.1 102).mp hc
      exact this.2 rfl,
    (h.2.2.2 100).mpr (by decide), (h.2.2.2 101).mpr (by decide)⟩

end YDTT
